import Mathlib

/-!
Verification development for the DevGotchi avatar state engine
(`src/out/extension.js`, class `DeveloperManager`).

JavaScript numbers are modelled as rationals (`ℚ`), timestamps and
counters as integers (`ℤ`).  `Math.floor` is `Int.floor`, `Math.max` /
`Math.min` are `max` / `min`.  Wall-clock inputs (`Date.now()`,
`new Date().getHours()`) and the random quest shuffle
(`templates.sort(() => 0.5 - Math.random())`) are passed as explicit
parameters, as the spec directs for testability.  The three fields that
`resetProgress` omits from its replacement record are modelled as
`Option` values so that the JavaScript `undefined` state is
representable; everywhere the source reads them through a truthiness
guard (`x || 0`, `!x`, `x === undefined`) the model mirrors that guard.
-/

namespace DevGotchi

inductive Mood where
  | productive
  | neutral
  | stressed
  | tired
  | burntOut
  | caffeinated
  | sleeping
deriving DecidableEq, Repr

inductive QuestType where
  | save
  | commit
  | fix
  | time
deriving DecidableEq, Repr

/-- Static skill catalog (`SKILLS` in the source). -/
structure Skill where
  id : String
  name : String
  description : String
  cost : ℚ
deriving DecidableEq, Repr

def SKILLS : List Skill := [
  { id := "caffeine_tolerance", name := "Caffeine Tolerance",
    description := "Coffee restores 50% more energy", cost := 50 },
  { id := "iron_focus", name := "Iron Focus",
    description := "Focus decays 30% slower", cost := 75 },
  { id := "bug_slayer", name := "Bug Slayer",
    description := "Earn 2x XP when fixing bugs", cost := 100 }]

inductive ItemType where
  | skin
  | furniture
  | accessory
deriving DecidableEq, Repr

/-- Static shop catalog (`SHOP_ITEMS` in the source). -/
structure ShopItem where
  id : String
  name : String
  type : ItemType
  description : String
  cost : ℚ
  emoji : Option String
deriving DecidableEq, Repr

def SHOP_ITEMS : List ShopItem := [
  { id := "skin_suit", name := "Business Suit", type := ItemType.skin,
    description := "Dress for success", cost := 150, emoji := some "🕴️" },
  { id := "skin_space", name := "Space Suit", type := ItemType.skin,
    description := "Code in zero-g", cost := 300, emoji := some "👨‍🚀" },
  { id := "furn_chair", name := "Ergo Chair", type := ItemType.furniture,
    description := "Energy decays 15% slower", cost := 200, emoji := none },
  { id := "acc_keyboard", name := "Mech Keyboard", type := ItemType.accessory,
    description := "Motivation decays 15% slower", cost := 250, emoji := none }]

structure Quest where
  id : String
  description : String
  type : QuestType
  target : ℚ
  progress : ℚ
  reward : ℚ
  completed : Bool
deriving DecidableEq, Repr

/-- The in-memory developer record.  `questStreak`, `dailyQuestsCompleted`
and `tutorialCompleted` are `Option`-typed because `resetProgress` builds
a record that omits them (JavaScript `undefined`). -/
structure Dev where
  energy : ℚ
  motivation : ℚ
  focus : ℚ
  health : ℚ
  xp : ℚ
  level : ℤ
  lastUpdated : ℤ
  mood : Mood
  role : String
  name : String
  coffee : ℚ
  skills : List String
  inventory : List String
  lastDailyBonus : ℤ
  streak : ℤ
  quests : List Quest
  questStreak : Option ℤ
  dailyQuestsCompleted : Option Bool
  tutorialCompleted : Option Bool
deriving DecidableEq, Repr

/-- A persisted blob: the fields that `loadDeveloper` backfills are
optional (they may be absent from an old save). -/
structure SavedDev where
  energy : ℚ
  motivation : ℚ
  focus : ℚ
  health : ℚ
  xp : ℚ
  level : ℤ
  lastUpdated : ℤ
  mood : Mood
  role : String
  name : String
  coffee : ℚ
  skills : Option (List String)
  inventory : Option (List String)
  lastDailyBonus : Option ℤ
  streak : Option ℤ
  quests : Option (List Quest)
  questStreak : Option ℤ
  dailyQuestsCompleted : Option Bool
  tutorialCompleted : Option Bool
deriving DecidableEq, Repr

/-- The default record built by `loadDeveloper` when no save exists
(source lines 144-164).  `now` stands for the `Date.now()` call. -/
def defaultDev (now : ℤ) : Dev :=
  { energy := 100
    motivation := 100
    focus := 100
    health := 100
    xp := 0
    level := 1
    lastUpdated := now
    mood := Mood.productive
    role := "👨‍💻"
    name := "Dev"
    coffee := 50
    skills := []
    inventory := []
    lastDailyBonus := 0
    streak := 0
    quests := []
    questStreak := some 0
    dailyQuestsCompleted := some false
    tutorialCompleted := some false }

/-- JavaScript `if (!saved.x) saved.x = 0` on a numeric field: absent or
zero becomes zero, any other value is kept. -/
def jsNumOrZero (o : Option ℤ) : ℤ :=
  match o with
  | none => 0
  | some v => if v = 0 then 0 else v

/-- `loadDeveloper` (source lines 122-165): return the saved blob with
missing fields backfilled, or the default record. -/
def loadDeveloper (saved : Option SavedDev) (now : ℤ) : Dev :=
  match saved with
  | some b =>
    { energy := b.energy
      motivation := b.motivation
      focus := b.focus
      health := b.health
      xp := b.xp
      level := b.level
      lastUpdated := b.lastUpdated
      mood := b.mood
      role := b.role
      name := b.name
      coffee := b.coffee
      inventory := b.inventory.getD []
      lastDailyBonus := jsNumOrZero b.lastDailyBonus
      streak := jsNumOrZero b.streak
      skills := b.skills.getD []
      quests := b.quests.getD []
      questStreak := some (b.questStreak.getD 0)
      dailyQuestsCompleted := some (b.dailyQuestsCompleted.getD false)
      tutorialCompleted := some (b.tutorialCompleted.getD false) }
  | none => defaultDev now

/-- `calculateMood` (source lines 211-226); `hour` is the injected
wall-clock hour. -/
def calculateMood (s : Dev) (hour : ℤ) : Mood :=
  if 22 ≤ hour ∨ hour < 6 then Mood.sleeping
  else if s.health < 30 then Mood.burntOut
  else if s.energy < 30 then Mood.tired
  else if s.focus < 30 then Mood.stressed
  else if 80 < s.coffee then Mood.caffeinated
  else if 70 < s.motivation then Mood.productive
  else Mood.neutral

/-- The template a quest was instantiated from. -/
structure QuestTemplate where
  type : QuestType
  desc : String
  target : ℚ
  reward : ℚ
deriving DecidableEq, Repr

/-- The fixed 8-template quest catalog (source lines 260-269). -/
def templates : List QuestTemplate := [
  { type := QuestType.save, desc := "Save Master: Save 30 files", target := 30, reward := 15 },
  { type := QuestType.save, desc := "Typing Machine: Save 50 files", target := 50, reward := 25 },
  { type := QuestType.commit, desc := "Committer: Push 2 commits", target := 2, reward := 30 },
  { type := QuestType.commit, desc := "Ship It: Push 5 commits", target := 5, reward := 60 },
  { type := QuestType.fix, desc := "Bug Zapper: Fix 3 errors", target := 3, reward := 20 },
  { type := QuestType.fix, desc := "Quality Control: Fix 10 errors", target := 10, reward := 50 },
  { type := QuestType.time, desc := "Deep Work: Code for 30 minutes", target := 30, reward := 20 },
  { type := QuestType.time, desc := "Marathon: Code for 60 minutes", target := 60, reward := 45 }]

/-- `shuffled.map((t, i) => ({...}))` from `generateDailyQuests`: build a
quest from each template, threading the array index into the id. -/
def mkQuests (now : ℤ) : ℕ → List QuestTemplate → List Quest
  | _, [] => []
  | i, t :: rest =>
    { id := "quest_" ++ toString now ++ "_" ++ toString i
      description := t.desc
      type := t.type
      target := t.target
      progress := 0
      reward := t.reward
      completed := false } :: mkQuests now (i + 1) rest

/-- `generateDailyQuests` (source lines 253-282).  `shuffled` is the
randomly sorted copy of `templates` (the injected random source); the
slice keeps its first 3 entries. -/
def generateDailyQuests (s : Dev) (now : ℤ) (shuffled : List QuestTemplate) : Dev :=
  let s := if s.streak = 1 ∨ s.dailyQuestsCompleted.getD false = false then
      { s with questStreak := some 0 }
    else s
  let s := { s with dailyQuestsCompleted := some false }
  { s with quests := mkQuests now 0 (shuffled.take 3) }

/-- `checkDailyBonus` (source lines 230-249).  On an integer field
`lastDailyBonus || 0` is the identity, so it is read directly. -/
def checkDailyBonus (s : Dev) (now : ℤ) (shuffled : List QuestTemplate) : Dev :=
  let lastBonus := s.lastDailyBonus
  let oneDay : ℤ := 24 * 60 * 60 * 1000
  let twoDays : ℤ := 48 * 60 * 60 * 1000
  if oneDay ≤ now - lastBonus then
    let s := if 0 < lastBonus ∧ now - lastBonus < twoDays then
        { s with streak := s.streak + 1 }
      else
        { s with streak := 1 }
    let bonus : ℚ := 20 + (s.streak : ℚ) * 5
    let s := { s with coffee := s.coffee + bonus, lastDailyBonus := now }
    generateDailyQuests s now shuffled
  else s

/-- `updateQuestProgress` (source lines 385-410): advance matching
incomplete quests, latch completion and pay rewards, then check the
all-complete daily bonus. -/
def updateQuestProgress (s : Dev) (t : QuestType) (amount : ℚ) : Dev :=
  let step : Quest → Quest × ℚ := fun q =>
    if q.type = t ∧ q.completed = false then
      let p := q.progress + amount
      if q.target ≤ p then
        ({ q with progress := q.target, completed := true }, q.reward)
      else
        ({ q with progress := p }, 0)
    else (q, 0)
  let results := s.quests.map step
  let s := { s with quests := results.map Prod.fst,
                    coffee := s.coffee + (results.map Prod.snd).sum }
  if s.dailyQuestsCompleted.getD false = false ∧ 0 < s.quests.length ∧
      s.quests.all (fun q => q.completed) then
    let qs : ℤ := s.questStreak.getD 0 + 1
    { s with dailyQuestsCompleted := some true,
             questStreak := some qs,
             coffee := s.coffee + (50 + (qs : ℚ) * 10) }
  else s

/-- The level-up loop from `addXP` (source lines 490-496): while
`xp >= level*100`, increment the level and subtract the old threshold. -/
def levelLoop (level : ℤ) (xp : ℚ) : ℤ × ℚ :=
  if h : (level : ℚ) * 100 ≤ xp then
    levelLoop (level + 1) (xp - (level : ℚ) * 100)
  else
    (level, xp)
termination_by ((2 - level).toNat, ⌈xp⌉.toNat)
decreasing_by
  simp only [Prod.lex_def]
  rcases le_or_lt level 1 with h1 | h1
  · left
    omega
  · right
    refine ⟨by omega, ?_⟩
    have hcast : (level : ℚ) * 100 = ((level * 100 : ℤ) : ℚ) := by push_cast; ring
    have hceil : ⌈xp - (level : ℚ) * 100⌉ = ⌈xp⌉ - level * 100 := by
      rw [hcast, Int.ceil_sub_int]
    have hx200 : (200 : ℚ) ≤ xp := by
      refine le_trans ?_ h
      have : (2 : ℚ) ≤ (level : ℚ) := by exact_mod_cast h1
      nlinarith
    have hceil200 : (200 : ℤ) ≤ ⌈xp⌉ := by
      have := Int.le_ceil xp
      exact_mod_cast le_trans hx200 this
    have hnn : (0 : ℤ) ≤ ⌈xp - (level : ℚ) * 100⌉ := by
      apply Int.ceil_nonneg
      linarith
    omega

/-- `addXP` (source lines 487-500): apply the momentum multiplier, floor,
then run the level-up loop. -/
def addXP (s : Dev) (amount : ℚ) : Dev :=
  let xp := s.xp +
    (⌊amount * (1 + s.energy / 100) * (1 + s.focus / 100) * (1 + s.motivation / 100)⌋ : ℤ)
  let p := levelLoop s.level xp
  { s with level := p.1, xp := p.2 }

/-- `updateStats` (source lines 179-207), the tick step.  `now` and
`hour` are the injected clock, `lastErrorCount` the manager field, and
`shuffled` the injected quest shuffle. -/
def updateStats (s : Dev) (now hour : ℤ) (lastErrorCount : ℤ)
    (shuffled : List QuestTemplate) : Dev :=
  let hoursPassed : ℚ := ((now - s.lastUpdated : ℤ) : ℚ) / (1000 * 60 * 60)
  let energyDecay : ℚ := if s.inventory.contains "furn_chair" then 4 * 0.85 else 4
  let motivationDecay : ℚ := if s.inventory.contains "acc_keyboard" then 2 * 0.85 else 2
  let focusDecay : ℚ := if s.skills.contains "iron_focus" then 2.1 else 3
  let energy := max 0 (s.energy - hoursPassed * energyDecay)
  let motivation := max 0 (s.motivation - hoursPassed * motivationDecay)
  let focus := max 0 (s.focus - hoursPassed * focusDecay)
  let energy := if 0 < lastErrorCount then
      max 0 (energy - (lastErrorCount : ℚ) * 0.05)
    else energy
  let motivation := if 0 < lastErrorCount then
      max 0 (motivation - (lastErrorCount : ℚ) * 0.05)
    else motivation
  let s := { s with energy := energy, motivation := motivation, focus := focus }
  let s := if hoursPassed < 0.083 then
      updateQuestProgress s QuestType.time (hoursPassed * 60)
    else s
  let s := checkDailyBonus s now shuffled
  let s := { s with health := (s.energy + s.motivation + s.focus) / 3 }
  let s := { s with mood := calculateMood s hour }
  { s with lastUpdated := now }

/-- The replacement record built by `resetProgress` (source lines
289-306): note it stops at `quests` and omits `questStreak`,
`dailyQuestsCompleted` and `tutorialCompleted`. -/
def resetRecord (now : ℤ) : Dev :=
  { energy := 100
    motivation := 100
    focus := 100
    health := 100
    xp := 0
    level := 1
    lastUpdated := now
    mood := Mood.productive
    role := "👨‍💻"
    name := "Dev"
    coffee := 50
    skills := []
    inventory := []
    lastDailyBonus := 0
    streak := 0
    quests := []
    questStreak := none
    dailyQuestsCompleted := none
    tutorialCompleted := none }

/-- `resetProgress` after the user confirms (source lines 286-311):
replace the record, then run `updateStats`. -/
def resetProgress (now hour lastErrorCount : ℤ) (shuffled : List QuestTemplate) : Dev :=
  updateStats (resetRecord now) now hour lastErrorCount shuffled

structure ActionResult where
  success : Bool
  message : String
deriving DecidableEq, Repr

/-- `giveCoffee` (source lines 315-326). -/
def giveCoffee (s : Dev) : ActionResult × Dev :=
  if s.coffee < 10 then ({ success := false, message := "Out of coffee beans!" }, s)
  else
    let s := { s with coffee := s.coffee - 10 }
    let energyBoost : ℚ := if s.skills.contains "caffeine_tolerance" then 52 else 35
    let s := { s with energy := min 100 (s.energy + energyBoost) }
    let s := { s with focus := min 100 (s.focus + 20) }
    let s := { s with motivation := min 100 (s.motivation + 10) }
    let s := addXP s 5
    ({ success := true, message := "Ahh, coffee! ☕" }, s)

/-- `takeBreak` (source lines 330-339): the XP reward is computed from
the pre-break energy and motivation, then the boosts are applied. -/
def takeBreak (s : Dev) : ActionResult × Dev :=
  if s.energy = 100 ∧ s.motivation = 100 then
    ({ success := false, message := "Energy and motivation are full!" }, s)
  else
    let s := addXP s
      ((⌊max 5 (max (5 * (100 - s.energy) / 40) (5 * (100 - s.motivation) / 15))⌋ : ℤ) : ℚ)
    let s := { s with energy := min 100 (s.energy + 40) }
    let s := { s with motivation := min 100 (s.motivation + 15) }
    let s := { s with focus := max 0 (s.focus - 5) }
    ({ success := true, message := "Refreshed! 🌴" }, s)

/-- `onCodeSaved` (source lines 343-349). -/
def onCodeSaved (s : Dev) : Dev :=
  let s := { s with motivation := min 100 (s.motivation + 3) }
  let s := { s with coffee := s.coffee + 1 }
  let s := addXP s 3
  updateQuestProgress s QuestType.save 1

/-- `onGitCommit` (source lines 353-360). -/
def onGitCommit (s : Dev) : Dev :=
  let s := { s with motivation := min 100 (s.motivation + 20) }
  let s := { s with coffee := s.coffee + 5 }
  let s := addXP s 50
  updateQuestProgress s QuestType.commit 1

/-- `updateErrorCount` (source lines 364-381); `lastErrorCount` is the
manager field, and the new manager field value is `currentErrors`. -/
def updateErrorCount (s : Dev) (lastErrorCount currentErrors : ℤ) : Dev :=
  let diff := currentErrors - lastErrorCount
  if diff < 0 then
    let fixed : ℤ := (diff.natAbs : ℤ)
    let xpMult : ℤ := if s.skills.contains "bug_slayer" then 2 else 1
    let s := addXP s ((fixed * 5 * xpMult : ℤ) : ℚ)
    let s := { s with motivation := min 100 (s.motivation + (fixed : ℚ)) }
    updateQuestProgress s QuestType.fix (fixed : ℚ)
  else if 0 < diff then
    { s with focus := max 0 (s.focus - (diff : ℚ) * 0.5) }
  else s

/-- `completeTutorial` (source lines 414-417). -/
def completeTutorial (s : Dev) : Dev :=
  { s with tutorialCompleted := some true }

/-- `unlockSkill` (source lines 421-433). -/
def unlockSkill (s : Dev) (skillId : String) : ActionResult × Dev :=
  match SKILLS.find? (fun sk => sk.id == skillId) with
  | none => ({ success := false, message := "Skill not found" }, s)
  | some skill =>
    if s.skills.contains skillId then
      ({ success := false, message := "Skill already unlocked" }, s)
    else if s.coffee < skill.cost then
      ({ success := false, message := "Need " ++ toString skill.cost ++ " beans!" }, s)
    else
      ({ success := true, message := "Unlocked " ++ skill.name ++ "! 🎉" },
       { s with coffee := s.coffee - skill.cost, skills := s.skills ++ [skillId] })

/-- `buyItem` (source lines 437-454). -/
def buyItem (s : Dev) (itemId : String) : ActionResult × Dev :=
  match SHOP_ITEMS.find? (fun it => it.id == itemId) with
  | none => ({ success := false, message := "Item not found" }, s)
  | some item =>
    if s.inventory.contains itemId then
      ({ success := false, message := "Already owned" }, s)
    else if s.coffee < item.cost then
      ({ success := false, message := "Not enough beans" }, s)
    else
      let s := { s with coffee := s.coffee - item.cost,
                        inventory := s.inventory ++ [itemId] }
      let s := match item.type, item.emoji with
        | ItemType.skin, some e => { s with role := e }
        | _, _ => s
      ({ success := true, message := "Bought " ++ item.name ++ "! 🛍️" }, s)

/-- `equipItem` (source lines 455-464). -/
def equipItem (s : Dev) (itemId : String) : ActionResult × Dev :=
  match SHOP_ITEMS.find? (fun it => it.id == itemId) with
  | none => ({ success := false, message := "Cannot equip" }, s)
  | some item =>
    if s.inventory.contains itemId = false then
      ({ success := false, message := "Cannot equip" }, s)
    else
      match item.type, item.emoji with
      | ItemType.skin, some e =>
        ({ success := true, message := "Equipped " ++ item.name }, { s with role := e })
      | _, _ => ({ success := false, message := "Not equippable" }, s)

/-- The raw (pre-multiplier) XP amount of `challengeCompleted`:
`score + score*score/100 + score*score*score/100000`. -/
def challengeRawXP (score : ℚ) : ℚ :=
  score + score * score / 100 + score * score * score / 100000

/-- `challengeCompleted` (source lines 468-475); returns the earned
coffee alongside the new state. -/
def challengeCompleted (s : Dev) (score : ℚ) : ℤ × Dev :=
  let coffeeEarned : ℤ := ⌊score / 10⌋
  let s := { s with coffee := s.coffee + (coffeeEarned : ℚ) }
  let s := { s with motivation := min 100 (s.motivation + 20) }
  let s := addXP s (challengeRawXP score)
  (coffeeEarned, s)

/-- `renameDeveloper` (source lines 479-483). -/
def renameDeveloper (s : Dev) (newName : String) : ActionResult × Dev :=
  ({ success := true, message := "Renamed to " ++ newName ++ "!" },
   { s with name := newName })

/-- The template data a quest carries (used to state that regenerated
quests are drawn from the catalog). -/
def questTemplateOf (q : Quest) : QuestTemplate :=
  { type := q.type, desc := q.description, target := q.target, reward := q.reward }

/-! ### Field-preservation lemmas for the individual operations -/

theorem uqp_energy (s : Dev) (t : QuestType) (a : ℚ) :
    (updateQuestProgress s t a).energy = s.energy := by
  simp only [updateQuestProgress]
  split <;> rfl

theorem uqp_motivation (s : Dev) (t : QuestType) (a : ℚ) :
    (updateQuestProgress s t a).motivation = s.motivation := by
  simp only [updateQuestProgress]
  split <;> rfl

theorem uqp_focus (s : Dev) (t : QuestType) (a : ℚ) :
    (updateQuestProgress s t a).focus = s.focus := by
  simp only [updateQuestProgress]
  split <;> rfl

theorem uqp_health (s : Dev) (t : QuestType) (a : ℚ) :
    (updateQuestProgress s t a).health = s.health := by
  simp only [updateQuestProgress]
  split <;> rfl

theorem uqp_xp (s : Dev) (t : QuestType) (a : ℚ) :
    (updateQuestProgress s t a).xp = s.xp := by
  simp only [updateQuestProgress]
  split <;> rfl

theorem uqp_level (s : Dev) (t : QuestType) (a : ℚ) :
    (updateQuestProgress s t a).level = s.level := by
  simp only [updateQuestProgress]
  split <;> rfl

theorem uqp_skills (s : Dev) (t : QuestType) (a : ℚ) :
    (updateQuestProgress s t a).skills = s.skills := by
  simp only [updateQuestProgress]
  split <;> rfl

theorem uqp_inventory (s : Dev) (t : QuestType) (a : ℚ) :
    (updateQuestProgress s t a).inventory = s.inventory := by
  simp only [updateQuestProgress]
  split <;> rfl

theorem uqp_streak (s : Dev) (t : QuestType) (a : ℚ) :
    (updateQuestProgress s t a).streak = s.streak := by
  simp only [updateQuestProgress]
  split <;> rfl

theorem uqp_lastDailyBonus (s : Dev) (t : QuestType) (a : ℚ) :
    (updateQuestProgress s t a).lastDailyBonus = s.lastDailyBonus := by
  simp only [updateQuestProgress]
  split <;> rfl

theorem uqp_lastUpdated (s : Dev) (t : QuestType) (a : ℚ) :
    (updateQuestProgress s t a).lastUpdated = s.lastUpdated := by
  simp only [updateQuestProgress]
  split <;> rfl

/-- On an empty quest list `updateQuestProgress` is the identity. -/
theorem uqp_nil (s : Dev) (t : QuestType) (a : ℚ) (hq : s.quests = []) :
    updateQuestProgress s t a = s := by
  cases s
  simp only at hq
  subst hq
  simp [updateQuestProgress]

theorem gdq_energy (s : Dev) (now : ℤ) (p : List QuestTemplate) :
    (generateDailyQuests s now p).energy = s.energy := by
  simp only [generateDailyQuests]
  split <;> rfl

theorem gdq_motivation (s : Dev) (now : ℤ) (p : List QuestTemplate) :
    (generateDailyQuests s now p).motivation = s.motivation := by
  simp only [generateDailyQuests]
  split <;> rfl

theorem gdq_focus (s : Dev) (now : ℤ) (p : List QuestTemplate) :
    (generateDailyQuests s now p).focus = s.focus := by
  simp only [generateDailyQuests]
  split <;> rfl

theorem gdq_health (s : Dev) (now : ℤ) (p : List QuestTemplate) :
    (generateDailyQuests s now p).health = s.health := by
  simp only [generateDailyQuests]
  split <;> rfl

theorem gdq_xp (s : Dev) (now : ℤ) (p : List QuestTemplate) :
    (generateDailyQuests s now p).xp = s.xp := by
  simp only [generateDailyQuests]
  split <;> rfl

theorem gdq_level (s : Dev) (now : ℤ) (p : List QuestTemplate) :
    (generateDailyQuests s now p).level = s.level := by
  simp only [generateDailyQuests]
  split <;> rfl

theorem gdq_skills (s : Dev) (now : ℤ) (p : List QuestTemplate) :
    (generateDailyQuests s now p).skills = s.skills := by
  simp only [generateDailyQuests]
  split <;> rfl

theorem gdq_inventory (s : Dev) (now : ℤ) (p : List QuestTemplate) :
    (generateDailyQuests s now p).inventory = s.inventory := by
  simp only [generateDailyQuests]
  split <;> rfl

theorem gdq_streak (s : Dev) (now : ℤ) (p : List QuestTemplate) :
    (generateDailyQuests s now p).streak = s.streak := by
  simp only [generateDailyQuests]
  split <;> rfl

theorem gdq_coffee (s : Dev) (now : ℤ) (p : List QuestTemplate) :
    (generateDailyQuests s now p).coffee = s.coffee := by
  simp only [generateDailyQuests]
  split <;> rfl

theorem gdq_lastDailyBonus (s : Dev) (now : ℤ) (p : List QuestTemplate) :
    (generateDailyQuests s now p).lastDailyBonus = s.lastDailyBonus := by
  simp only [generateDailyQuests]
  split <;> rfl

theorem gdq_lastUpdated (s : Dev) (now : ℤ) (p : List QuestTemplate) :
    (generateDailyQuests s now p).lastUpdated = s.lastUpdated := by
  simp only [generateDailyQuests]
  split <;> rfl

theorem gdq_quests (s : Dev) (now : ℤ) (p : List QuestTemplate) :
    (generateDailyQuests s now p).quests = mkQuests now 0 (p.take 3) := rfl

theorem cdb_energy (s : Dev) (now : ℤ) (p : List QuestTemplate) :
    (checkDailyBonus s now p).energy = s.energy := by
  simp only [checkDailyBonus]
  split
  · rw [gdq_energy]
    split <;> rfl
  · rfl

theorem cdb_motivation (s : Dev) (now : ℤ) (p : List QuestTemplate) :
    (checkDailyBonus s now p).motivation = s.motivation := by
  simp only [checkDailyBonus]
  split
  · rw [gdq_motivation]
    split <;> rfl
  · rfl

theorem cdb_focus (s : Dev) (now : ℤ) (p : List QuestTemplate) :
    (checkDailyBonus s now p).focus = s.focus := by
  simp only [checkDailyBonus]
  split
  · rw [gdq_focus]
    split <;> rfl
  · rfl

theorem cdb_health (s : Dev) (now : ℤ) (p : List QuestTemplate) :
    (checkDailyBonus s now p).health = s.health := by
  simp only [checkDailyBonus]
  split
  · rw [gdq_health]
    split <;> rfl
  · rfl

theorem cdb_xp (s : Dev) (now : ℤ) (p : List QuestTemplate) :
    (checkDailyBonus s now p).xp = s.xp := by
  simp only [checkDailyBonus]
  split
  · rw [gdq_xp]
    split <;> rfl
  · rfl

theorem cdb_level (s : Dev) (now : ℤ) (p : List QuestTemplate) :
    (checkDailyBonus s now p).level = s.level := by
  simp only [checkDailyBonus]
  split
  · rw [gdq_level]
    split <;> rfl
  · rfl

theorem cdb_skills (s : Dev) (now : ℤ) (p : List QuestTemplate) :
    (checkDailyBonus s now p).skills = s.skills := by
  simp only [checkDailyBonus]
  split
  · rw [gdq_skills]
    split <;> rfl
  · rfl

theorem cdb_inventory (s : Dev) (now : ℤ) (p : List QuestTemplate) :
    (checkDailyBonus s now p).inventory = s.inventory := by
  simp only [checkDailyBonus]
  split
  · rw [gdq_inventory]
    split <;> rfl
  · rfl

theorem cdb_lastUpdated (s : Dev) (now : ℤ) (p : List QuestTemplate) :
    (checkDailyBonus s now p).lastUpdated = s.lastUpdated := by
  simp only [checkDailyBonus]
  split
  · rw [gdq_lastUpdated]
    split <;> rfl
  · rfl

theorem addXP_energy (s : Dev) (a : ℚ) : (addXP s a).energy = s.energy := rfl

theorem addXP_motivation (s : Dev) (a : ℚ) : (addXP s a).motivation = s.motivation := rfl

theorem addXP_focus (s : Dev) (a : ℚ) : (addXP s a).focus = s.focus := rfl

theorem addXP_health (s : Dev) (a : ℚ) : (addXP s a).health = s.health := rfl

theorem addXP_coffee (s : Dev) (a : ℚ) : (addXP s a).coffee = s.coffee := rfl

theorem addXP_skills (s : Dev) (a : ℚ) : (addXP s a).skills = s.skills := rfl

theorem addXP_inventory (s : Dev) (a : ℚ) : (addXP s a).inventory = s.inventory := rfl

theorem addXP_streak (s : Dev) (a : ℚ) : (addXP s a).streak = s.streak := rfl

theorem addXP_quests (s : Dev) (a : ℚ) : (addXP s a).quests = s.quests := rfl

theorem addXP_lastDailyBonus (s : Dev) (a : ℚ) :
    (addXP s a).lastDailyBonus = s.lastDailyBonus := rfl

theorem addXP_lastUpdated (s : Dev) (a : ℚ) : (addXP s a).lastUpdated = s.lastUpdated := rfl

/-! ### Characterization lemmas for the tick step -/

theorem tick_lastUpdated (s : Dev) (now hour c : ℤ) (p : List QuestTemplate) :
    (updateStats s now hour c p).lastUpdated = now := rfl

theorem tick_health_mean (s : Dev) (now hour c : ℤ) (p : List QuestTemplate) :
    (updateStats s now hour c p).health =
      ((updateStats s now hour c p).energy + (updateStats s now hour c p).motivation +
        (updateStats s now hour c p).focus) / 3 := rfl

theorem tick_energy (s : Dev) (now hour c : ℤ) (p : List QuestTemplate) :
    (updateStats s now hour c p).energy =
      (if 0 < c then
        max 0 (max 0 (s.energy - ((now - s.lastUpdated : ℤ) : ℚ) / (1000 * 60 * 60) *
          (if s.inventory.contains "furn_chair" then 4 * 0.85 else 4)) - (c : ℚ) * 0.05)
      else
        max 0 (s.energy - ((now - s.lastUpdated : ℤ) : ℚ) / (1000 * 60 * 60) *
          (if s.inventory.contains "furn_chair" then 4 * 0.85 else 4))) := by
  show (checkDailyBonus (ite _ _ _) now p).energy = _
  rw [cdb_energy]
  split <;> simp only [uqp_energy]

theorem tick_motivation (s : Dev) (now hour c : ℤ) (p : List QuestTemplate) :
    (updateStats s now hour c p).motivation =
      (if 0 < c then
        max 0 (max 0 (s.motivation - ((now - s.lastUpdated : ℤ) : ℚ) / (1000 * 60 * 60) *
          (if s.inventory.contains "acc_keyboard" then 2 * 0.85 else 2)) - (c : ℚ) * 0.05)
      else
        max 0 (s.motivation - ((now - s.lastUpdated : ℤ) : ℚ) / (1000 * 60 * 60) *
          (if s.inventory.contains "acc_keyboard" then 2 * 0.85 else 2))) := by
  show (checkDailyBonus (ite _ _ _) now p).motivation = _
  rw [cdb_motivation]
  split <;> simp only [uqp_motivation]

theorem tick_focus (s : Dev) (now hour c : ℤ) (p : List QuestTemplate) :
    (updateStats s now hour c p).focus =
      max 0 (s.focus - ((now - s.lastUpdated : ℤ) : ℚ) / (1000 * 60 * 60) *
        (if s.skills.contains "iron_focus" then 2.1 else 3)) := by
  show (checkDailyBonus (ite _ _ _) now p).focus = _
  rw [cdb_focus]
  split <;> simp only [uqp_focus]

theorem tick_inventory (s : Dev) (now hour c : ℤ) (p : List QuestTemplate) :
    (updateStats s now hour c p).inventory = s.inventory := by
  show (checkDailyBonus (ite _ _ _) now p).inventory = _
  rw [cdb_inventory]
  split <;> simp only [uqp_inventory]

theorem tick_skills (s : Dev) (now hour c : ℤ) (p : List QuestTemplate) :
    (updateStats s now hour c p).skills = s.skills := by
  show (checkDailyBonus (ite _ _ _) now p).skills = _
  rw [cdb_skills]
  split <;> simp only [uqp_skills]

theorem tick_level (s : Dev) (now hour c : ℤ) (p : List QuestTemplate) :
    (updateStats s now hour c p).level = s.level := by
  show (checkDailyBonus (ite _ _ _) now p).level = _
  rw [cdb_level]
  split <;> simp only [uqp_level]

theorem tick_energy_nonneg (s : Dev) (now hour c : ℤ) (p : List QuestTemplate) :
    0 ≤ (updateStats s now hour c p).energy := by
  rw [tick_energy]
  split <;> exact le_max_left _ _

theorem tick_motivation_nonneg (s : Dev) (now hour c : ℤ) (p : List QuestTemplate) :
    0 ≤ (updateStats s now hour c p).motivation := by
  rw [tick_motivation]
  split <;> exact le_max_left _ _

theorem tick_focus_nonneg (s : Dev) (now hour c : ℤ) (p : List QuestTemplate) :
    0 ≤ (updateStats s now hour c p).focus := by
  rw [tick_focus]
  exact le_max_left _ _

/-! ### Lemmas for the level-up loop -/

theorem levelLoop_level_le (level : ℤ) (xp : ℚ) : level ≤ (levelLoop level xp).1 := by
  induction level, xp using levelLoop.induct with
  | case1 level xp h ih =>
    rw [levelLoop, dif_pos h]
    omega
  | case2 level xp h =>
    rw [levelLoop, dif_neg h]

theorem levelLoop_inv (level : ℤ) (xp : ℚ) :
    1 ≤ level → 0 ≤ xp →
      1 ≤ (levelLoop level xp).1 ∧ 0 ≤ (levelLoop level xp).2 ∧
        (levelLoop level xp).2 < ((levelLoop level xp).1 : ℚ) * 100 := by
  induction level, xp using levelLoop.induct with
  | case1 level xp h ih =>
    intro hl hx
    rw [levelLoop, dif_pos h]
    exact ih (by omega) (by linarith)
  | case2 level xp h =>
    intro hl hx
    rw [levelLoop, dif_neg h]
    exact ⟨hl, hx, not_le.mp h⟩

/-! ### Lemmas for quest generation -/

theorem mkQuests_length (now : ℤ) (i : ℕ) (l : List QuestTemplate) :
    (mkQuests now i l).length = l.length := by
  induction l generalizing i with
  | nil => rfl
  | cons t rest ih => simp [mkQuests, ih]

theorem mkQuests_map (now : ℤ) (i : ℕ) (l : List QuestTemplate) :
    (mkQuests now i l).map questTemplateOf = l := by
  induction l generalizing i with
  | nil => rfl
  | cons t rest ih => simp [mkQuests, questTemplateOf, ih]

theorem mkQuests_fresh (now : ℤ) (i : ℕ) (l : List QuestTemplate) :
    ∀ q ∈ mkQuests now i l, q.progress = 0 ∧ q.completed = false := by
  induction l generalizing i with
  | nil => intro q hq; cases hq
  | cons t rest ih =>
    intro q hq
    simp only [mkQuests] at hq
    rcases List.mem_cons.mp hq with hq | hq
    · subst hq
      exact ⟨rfl, rfl⟩
    · exact ih (i + 1) q hq

theorem templates_nodup : templates.Nodup := by decide

/-- When the 24-hour gate is open, `checkDailyBonus` updates the streak
first and then awards coffee computed from the updated streak. -/
theorem cdb_fired (s : Dev) (now : ℤ) (p : List QuestTemplate)
    (h : (24 * 60 * 60 * 1000 : ℤ) ≤ now - s.lastDailyBonus) :
    checkDailyBonus s now p =
      generateDailyQuests
        { s with
          streak := if 0 < s.lastDailyBonus ∧ now - s.lastDailyBonus < 48 * 60 * 60 * 1000
            then s.streak + 1 else 1,
          coffee := s.coffee + (20 +
            (((if 0 < s.lastDailyBonus ∧ now - s.lastDailyBonus < 48 * 60 * 60 * 1000
              then s.streak + 1 else 1) : ℤ) : ℚ) * 5),
          lastDailyBonus := now } now p := by
  simp only [checkDailyBonus]
  rw [if_pos h]
  split <;> rfl

/-- `jsNumOrZero` coincides with `Option.getD 0`. -/
theorem jsNumOrZero_eq_getD (o : Option ℤ) : jsNumOrZero o = o.getD 0 := by
  cases o with
  | none => rfl
  | some v =>
    by_cases h : v = 0 <;> simp [jsNumOrZero, h]

/-- `addXP` never decreases the level. -/
theorem addXP_level_le (s : Dev) (a : ℚ) : s.level ≤ (addXP s a).level :=
  levelLoop_level_le s.level _

/-- An `if` whose then-branch is `updateQuestProgress` collapses on an
empty quest list. -/
theorem cdb_from_zero (X : Dev) (now : ℤ) (p : List QuestTemplate)
    (h0 : X.lastDailyBonus = 0) (hnow : (24 * 60 * 60 * 1000 : ℤ) ≤ now)
    (hp : p.Perm templates) :
    (checkDailyBonus X now p).streak = 1 ∧
    (checkDailyBonus X now p).coffee = X.coffee + 25 ∧
    (checkDailyBonus X now p).quests.length = 3 := by
  rw [cdb_fired X now p (by omega)]
  rw [h0]
  refine ⟨?_, ?_, ?_⟩
  · rw [gdq_streak]
    norm_num
  · rw [gdq_coffee]
    norm_num
  · rw [gdq_quests, mkQuests_length, List.length_take, hp.length_eq]
    rfl

/-! ### Claim theorems -/

/-- Claim C1, counterexample: on a state with all primary stats at 50 and
health 50, a successful `giveCoffee` leaves `health` at 50 while the
boosted stats average 215/3, so `health` is not the mean of the
post-operation `energy`, `motivation`, `focus` — no tick-equivalent
recompute happens inside the handler. -/
theorem giveCoffee_health_not_mean :
    ((giveCoffee { defaultDev 0 with
        energy := 50, motivation := 50, focus := 50, health := 50 }).2).health ≠
      (((giveCoffee { defaultDev 0 with
          energy := 50, motivation := 50, focus := 50, health := 50 }).2).energy +
        ((giveCoffee { defaultDev 0 with
          energy := 50, motivation := 50, focus := 50, health := 50 }).2).motivation +
        ((giveCoffee { defaultDev 0 with
          energy := 50, motivation := 50, focus := 50, health := 50 }).2).focus) / 3 := by
  norm_num [giveCoffee, defaultDev, addXP_health, addXP_energy, addXP_motivation,
    addXP_focus, min_def]

/-- Claim C1 (amended): the event and action handlers do not recompute
the derived fields; each of `giveCoffee`, `takeBreak`, `onCodeSaved`,
`onGitCommit`, `updateErrorCount` and `challengeCompleted` returns with
`health` unchanged from its pre-operation value, and `health` equals the
mean of `energy`, `motivation`, `focus` only after `updateStats` (the
tick), which is the sole place the derived fields are recomputed. -/
theorem handlers_keep_health_tick_recomputes :
    (∀ s : Dev, ((giveCoffee s).2).health = s.health) ∧
    (∀ s : Dev, ((takeBreak s).2).health = s.health) ∧
    (∀ s : Dev, (onCodeSaved s).health = s.health) ∧
    (∀ s : Dev, (onGitCommit s).health = s.health) ∧
    (∀ (s : Dev) (l c : ℤ), (updateErrorCount s l c).health = s.health) ∧
    (∀ (s : Dev) (score : ℚ), ((challengeCompleted s score).2).health = s.health) ∧
    (∀ (s : Dev) (now hour c : ℤ) (p : List QuestTemplate),
      (updateStats s now hour c p).health =
        ((updateStats s now hour c p).energy + (updateStats s now hour c p).motivation +
          (updateStats s now hour c p).focus) / 3) := by
  refine ⟨?_, ?_, ?_, ?_, ?_, ?_, ?_⟩
  · intro s
    simp only [giveCoffee]
    split <;> simp only [addXP_health]
  · intro s
    simp only [takeBreak]
    split <;> simp only [addXP_health]
  · intro s
    simp only [onCodeSaved, uqp_health, addXP_health]
  · intro s
    simp only [onGitCommit, uqp_health, addXP_health]
  · intro s l c
    simp only [updateErrorCount]
    split
    · simp only [uqp_health, addXP_health]
    · split <;> rfl
  · intro s score
    simp only [challengeCompleted, addXP_health]
  · intro s now hour c p
    exact tick_health_mean s now hour c p

/-- Claim C2, counterexample: with one reported error, a second tick at
the same instant drains a further flat 0.05 energy (99.95 becomes 99.9),
so `tick` is not idempotent for every externally-reported error count. -/
theorem tick_second_call_drains_under_errors :
    (updateStats (updateStats (defaultDev 0) 0 12 1 templates) 0 12 1 templates).energy ≠
      (updateStats (defaultDev 0) 0 12 1 templates).energy := by
  simp only [tick_energy, tick_lastUpdated, tick_inventory, defaultDev]
  norm_num [max_def]

/-- Claim C2 (amended): with a zero reported error count, calling
`updateStats` a second time with the same `now` leaves `energy`,
`motivation`, `focus` and `health` unchanged; the flat linter-stress
drain is what breaks idempotence for positive error counts. -/
theorem tick_idempotent_zero_errors (s : Dev) (now hour : ℤ) (p : List QuestTemplate) :
    (updateStats (updateStats s now hour 0 p) now hour 0 p).energy =
      (updateStats s now hour 0 p).energy ∧
    (updateStats (updateStats s now hour 0 p) now hour 0 p).motivation =
      (updateStats s now hour 0 p).motivation ∧
    (updateStats (updateStats s now hour 0 p) now hour 0 p).focus =
      (updateStats s now hour 0 p).focus ∧
    (updateStats (updateStats s now hour 0 p) now hour 0 p).health =
      (updateStats s now hour 0 p).health := by
  have hE := tick_energy_nonneg s now hour 0 p
  have hM := tick_motivation_nonneg s now hour 0 p
  have hF := tick_focus_nonneg s now hour 0 p
  have he : (updateStats (updateStats s now hour 0 p) now hour 0 p).energy =
      (updateStats s now hour 0 p).energy := by
    rw [tick_energy, tick_lastUpdated]
    norm_num
    exact hE
  have hm : (updateStats (updateStats s now hour 0 p) now hour 0 p).motivation =
      (updateStats s now hour 0 p).motivation := by
    rw [tick_motivation, tick_lastUpdated]
    norm_num
    exact hM
  have hf : (updateStats (updateStats s now hour 0 p) now hour 0 p).focus =
      (updateStats s now hour 0 p).focus := by
    rw [tick_focus, tick_lastUpdated]
    norm_num
    exact hF
  refine ⟨he, hm, hf, ?_⟩
  rw [tick_health_mean, tick_health_mean s now hour 0 p, he, hm, hf]

/-- Claim C5: `addXP` adds exactly the floored momentum-multiplied
amount, runs the level-up while-loop, and on any state with a
nonnegative reward, level at least 1 and normalized nonnegative stats,
re-establishes `0 ≤ xp < level*100` without ever decreasing the level
(no level cap is applied). -/
theorem addXP_spec (s : Dev) (amount : ℚ) (ha : 0 ≤ amount) (hl : 1 ≤ s.level)
    (hx0 : 0 ≤ s.xp) (hx1 : s.xp < (s.level : ℚ) * 100)
    (he : 0 ≤ s.energy) (hf : 0 ≤ s.focus) (hm : 0 ≤ s.motivation) :
    ((addXP s amount).level, (addXP s amount).xp) =
      levelLoop s.level (s.xp +
        ((⌊amount * (1 + s.energy / 100) * (1 + s.focus / 100) *
          (1 + s.motivation / 100)⌋ : ℤ) : ℚ)) ∧
    (0 : ℤ) ≤ ⌊amount * (1 + s.energy / 100) * (1 + s.focus / 100) *
      (1 + s.motivation / 100)⌋ ∧
    s.level ≤ (addXP s amount).level ∧
    0 ≤ (addXP s amount).xp ∧
    (addXP s amount).xp < ((addXP s amount).level : ℚ) * 100 := by
  have hg : (0 : ℤ) ≤ ⌊amount * (1 + s.energy / 100) * (1 + s.focus / 100) *
      (1 + s.motivation / 100)⌋ := by
    apply Int.floor_nonneg.mpr
    have h1 : (0 : ℚ) ≤ 1 + s.energy / 100 := by linarith
    have h2 : (0 : ℚ) ≤ 1 + s.focus / 100 := by linarith
    have h3 : (0 : ℚ) ≤ 1 + s.motivation / 100 := by linarith
    exact mul_nonneg (mul_nonneg (mul_nonneg ha h1) h2) h3
  have hxg : (0 : ℚ) ≤ s.xp +
      ((⌊amount * (1 + s.energy / 100) * (1 + s.focus / 100) *
        (1 + s.motivation / 100)⌋ : ℤ) : ℚ) := by
    have : (0 : ℚ) ≤ ((⌊amount * (1 + s.energy / 100) * (1 + s.focus / 100) *
        (1 + s.motivation / 100)⌋ : ℤ) : ℚ) := by exact_mod_cast hg
    linarith
  have hinv := levelLoop_inv s.level _ hl hxg
  exact ⟨rfl, hg, addXP_level_le s amount, hinv.2.1, hinv.2.2⟩

/-- Claim C5, witness: `addXP 5` on the default state (level 1, xp 0,
all stats 100) gains 40 XP and keeps the normalization invariant. -/
theorem addXP_spec_witness :
    0 ≤ (addXP (defaultDev 0) 5).xp ∧
    (addXP (defaultDev 0) 5).xp < ((addXP (defaultDev 0) 5).level : ℚ) * 100 := by
  have h := addXP_spec (defaultDev 0) 5 (by norm_num) (by norm_num [defaultDev])
    (by norm_num [defaultDev]) (by norm_num [defaultDev]) (by norm_num [defaultDev])
    (by norm_num [defaultDev]) (by norm_num [defaultDev])
  exact ⟨h.2.2.2.1, h.2.2.2.2⟩

/-- Claim C6, counterexample: the raw XP amount passed for a score of
300 is 300 + 90000/100 + 27000000/100000 = 300 + 900 + 270 = 1470, not
579 (the spec miscomputed 300 squared over 100 as 9). -/
theorem challengeRawXP_300_ne_579 :
    challengeRawXP 300 = 1470 ∧ challengeRawXP 300 ≠ 579 := by
  norm_num [challengeRawXP]

/-- Claim C6 (amended): `challengeCompleted 300` earns and banks exactly
30 coffee, and hands the momentum multiplier a raw XP amount of exactly
1470 = 300 + 900 + 270 (on the state whose motivation was already
boosted by 20). -/
theorem challengeCompleted_300_spec (s : Dev) :
    (challengeCompleted s 300).1 = 30 ∧
    ((challengeCompleted s 300).2).coffee = s.coffee + 30 ∧
    challengeRawXP 300 = 1470 ∧
    (challengeCompleted s 300).2 =
      addXP { s with coffee := s.coffee + 30,
                     motivation := min 100 (s.motivation + 20) } (challengeRawXP 300) := by
  have h30 : ⌊(300 : ℚ) / 10⌋ = 30 := by norm_num
  refine ⟨?_, ?_, by norm_num [challengeRawXP], ?_⟩
  · simp only [challengeCompleted, h30]
  · simp only [challengeCompleted, addXP_coffee, h30]
    norm_num
  · simp only [challengeCompleted, h30]
    norm_num

/-- Claim C3, counterexample: `checkDailyBonus` on a state with streak 5
whose last bonus lies exactly 48 hours back resets the streak to 1, so
the streak counter does decrease outside of `resetProgress`. -/
theorem checkDailyBonus_streak_decreases :
    (checkDailyBonus { defaultDev 0 with streak := 5, lastDailyBonus := 1 }
        172800001 templates).streak <
      ({ defaultDev 0 with streak := 5, lastDailyBonus := 1 } : Dev).streak := by
  rw [cdb_fired _ _ _ (by norm_num), gdq_streak]
  norm_num

/-- Claim C3 (amended): under every modelled operation except
`resetProgress`, the `skills` and `inventory` lists never lose an
element (the old list is always a sublist of the new one) and `level`
never decreases; the `streak` and `questStreak` counters, however, can
be reset by `checkDailyBonus` / `generateDailyQuests` themselves. -/
theorem skills_inventory_level_monotone :
    (∀ (s : Dev) (now hour c : ℤ) (p : List QuestTemplate),
      s.skills.Sublist (updateStats s now hour c p).skills ∧
      s.inventory.Sublist (updateStats s now hour c p).inventory ∧
      s.level ≤ (updateStats s now hour c p).level) ∧
    (∀ s : Dev, s.skills.Sublist ((giveCoffee s).2).skills ∧
      s.inventory.Sublist ((giveCoffee s).2).inventory ∧
      s.level ≤ ((giveCoffee s).2).level) ∧
    (∀ s : Dev, s.skills.Sublist ((takeBreak s).2).skills ∧
      s.inventory.Sublist ((takeBreak s).2).inventory ∧
      s.level ≤ ((takeBreak s).2).level) ∧
    (∀ s : Dev, s.skills.Sublist (onCodeSaved s).skills ∧
      s.inventory.Sublist (onCodeSaved s).inventory ∧
      s.level ≤ (onCodeSaved s).level) ∧
    (∀ s : Dev, s.skills.Sublist (onGitCommit s).skills ∧
      s.inventory.Sublist (onGitCommit s).inventory ∧
      s.level ≤ (onGitCommit s).level) ∧
    (∀ (s : Dev) (l c : ℤ), s.skills.Sublist (updateErrorCount s l c).skills ∧
      s.inventory.Sublist (updateErrorCount s l c).inventory ∧
      s.level ≤ (updateErrorCount s l c).level) ∧
    (∀ (s : Dev) (x : ℚ), s.skills.Sublist ((challengeCompleted s x).2).skills ∧
      s.inventory.Sublist ((challengeCompleted s x).2).inventory ∧
      s.level ≤ ((challengeCompleted s x).2).level) ∧
    (∀ (s : Dev) (id : String), s.skills.Sublist ((unlockSkill s id).2).skills ∧
      s.inventory.Sublist ((unlockSkill s id).2).inventory ∧
      s.level ≤ ((unlockSkill s id).2).level) ∧
    (∀ (s : Dev) (id : String), s.skills.Sublist ((buyItem s id).2).skills ∧
      s.inventory.Sublist ((buyItem s id).2).inventory ∧
      s.level ≤ ((buyItem s id).2).level) ∧
    (∀ (s : Dev) (id : String), s.skills.Sublist ((equipItem s id).2).skills ∧
      s.inventory.Sublist ((equipItem s id).2).inventory ∧
      s.level ≤ ((equipItem s id).2).level) ∧
    (∀ (s : Dev) (n : String), s.skills.Sublist ((renameDeveloper s n).2).skills ∧
      s.inventory.Sublist ((renameDeveloper s n).2).inventory ∧
      s.level ≤ ((renameDeveloper s n).2).level) ∧
    (∀ s : Dev, s.skills.Sublist (completeTutorial s).skills ∧
      s.inventory.Sublist (completeTutorial s).inventory ∧
      s.level ≤ (completeTutorial s).level) ∧
    (∀ (s : Dev) (now : ℤ) (p : List QuestTemplate),
      s.skills.Sublist (checkDailyBonus s now p).skills ∧
      s.inventory.Sublist (checkDailyBonus s now p).inventory ∧
      s.level ≤ (checkDailyBonus s now p).level) ∧
    (∀ (s : Dev) (now : ℤ) (p : List QuestTemplate),
      s.skills.Sublist (generateDailyQuests s now p).skills ∧
      s.inventory.Sublist (generateDailyQuests s now p).inventory ∧
      s.level ≤ (generateDailyQuests s now p).level) ∧
    (∀ (s : Dev) (t : QuestType) (a : ℚ),
      s.skills.Sublist (updateQuestProgress s t a).skills ∧
      s.inventory.Sublist (updateQuestProgress s t a).inventory ∧
      s.level ≤ (updateQuestProgress s t a).level) ∧
    (∀ (s : Dev) (a : ℚ), s.skills.Sublist (addXP s a).skills ∧
      s.inventory.Sublist (addXP s a).inventory ∧
      s.level ≤ (addXP s a).level) := by
  refine ⟨?_, ?_, ?_, ?_, ?_, ?_, ?_, ?_, ?_, ?_, ?_, ?_, ?_, ?_, ?_, ?_⟩
  · intro s now hour c p
    rw [tick_skills, tick_inventory, tick_level]
    exact ⟨List.Sublist.refl _, List.Sublist.refl _, le_refl _⟩
  · intro s
    simp only [giveCoffee]
    split
    · exact ⟨List.Sublist.refl _, List.Sublist.refl _, le_refl _⟩
    · exact ⟨List.Sublist.refl _, List.Sublist.refl _, addXP_level_le _ _⟩
  · intro s
    simp only [takeBreak]
    split
    · exact ⟨List.Sublist.refl _, List.Sublist.refl _, le_refl _⟩
    · exact ⟨List.Sublist.refl _, List.Sublist.refl _, addXP_level_le _ _⟩
  · intro s
    simp only [onCodeSaved]
    rw [uqp_skills, uqp_inventory, uqp_level]
    exact ⟨List.Sublist.refl _, List.Sublist.refl _, addXP_level_le _ _⟩
  · intro s
    simp only [onGitCommit]
    rw [uqp_skills, uqp_inventory, uqp_level]
    exact ⟨List.Sublist.refl _, List.Sublist.refl _, addXP_level_le _ _⟩
  · intro s l c
    simp only [updateErrorCount]
    split
    · rw [uqp_skills, uqp_inventory, uqp_level]
      exact ⟨List.Sublist.refl _, List.Sublist.refl _, addXP_level_le _ _⟩
    · split
      · exact ⟨List.Sublist.refl _, List.Sublist.refl _, le_refl _⟩
      · exact ⟨List.Sublist.refl _, List.Sublist.refl _, le_refl _⟩
  · intro s x
    exact ⟨List.Sublist.refl _, List.Sublist.refl _, addXP_level_le _ _⟩
  · intro s id
    simp only [unlockSkill]
    split
    · exact ⟨List.Sublist.refl _, List.Sublist.refl _, le_refl _⟩
    · split
      · exact ⟨List.Sublist.refl _, List.Sublist.refl _, le_refl _⟩
      · split
        · exact ⟨List.Sublist.refl _, List.Sublist.refl _, le_refl _⟩
        · exact ⟨List.sublist_append_left _ _, List.Sublist.refl _, le_refl _⟩
  · intro s id
    simp only [buyItem]
    split
    · exact ⟨List.Sublist.refl _, List.Sublist.refl _, le_refl _⟩
    · split
      · exact ⟨List.Sublist.refl _, List.Sublist.refl _, le_refl _⟩
      · split
        · exact ⟨List.Sublist.refl _, List.Sublist.refl _, le_refl _⟩
        · split <;>
            exact ⟨List.Sublist.refl _, List.sublist_append_left _ _, le_refl _⟩
  · intro s id
    simp only [equipItem]
    split
    · exact ⟨List.Sublist.refl _, List.Sublist.refl _, le_refl _⟩
    · split
      · exact ⟨List.Sublist.refl _, List.Sublist.refl _, le_refl _⟩
      · split <;> exact ⟨List.Sublist.refl _, List.Sublist.refl _, le_refl _⟩
  · intro s n
    exact ⟨List.Sublist.refl _, List.Sublist.refl _, le_refl _⟩
  · intro s
    exact ⟨List.Sublist.refl _, List.Sublist.refl _, le_refl _⟩
  · intro s now p
    rw [cdb_skills, cdb_inventory, cdb_level]
    exact ⟨List.Sublist.refl _, List.Sublist.refl _, le_refl _⟩
  · intro s now p
    rw [gdq_skills, gdq_inventory, gdq_level]
    exact ⟨List.Sublist.refl _, List.Sublist.refl _, le_refl _⟩
  · intro s t a
    rw [uqp_skills, uqp_inventory, uqp_level]
    exact ⟨List.Sublist.refl _, List.Sublist.refl _, le_refl _⟩
  · intro s a
    exact ⟨List.Sublist.refl _, List.Sublist.refl _, addXP_level_le _ _⟩

/-- Claim C4, counterexample: with streak 0 and a bonus fired 24 hours
after a prior one, the code pays 50 + 20 + 1*5 = 75 coffee (using the
already-incremented streak), not 50 + 20 + 0*5 = 70 as the claimed
pre-update-streak formula predicts. -/
theorem dailyBonus_award_not_pre_streak :
    (checkDailyBonus { defaultDev 0 with lastDailyBonus := 1 } 86400001 templates).coffee ≠
      ({ defaultDev 0 with lastDailyBonus := 1 } : Dev).coffee +
        (20 + (({ defaultDev 0 with lastDailyBonus := 1 } : Dev).streak : ℚ) * 5) := by
  rw [cdb_fired _ _ _ (by norm_num), gdq_coffee]
  norm_num [defaultDev]

/-- Claim C4 (amended): when the 24-hour gate is open, `checkDailyBonus`
first increments the streak (if the previous bonus was nonzero and less
than 48 hours back) or resets it to 1, then awards
`coffee += 20 + newStreak*5` computed from the updated streak, sets
`lastDailyBonus = now`, and regenerates the quest list as 3 quests drawn
without replacement from the 8-template catalog, each starting with
progress 0 and not completed. -/
theorem checkDailyBonus_spec (s : Dev) (now : ℤ) (p : List QuestTemplate)
    (hday : (24 * 60 * 60 * 1000 : ℤ) ≤ now - s.lastDailyBonus)
    (hp : p.Perm templates) :
    (checkDailyBonus s now p).streak =
      (if 0 < s.lastDailyBonus ∧ now - s.lastDailyBonus < 48 * 60 * 60 * 1000
        then s.streak + 1 else 1) ∧
    (checkDailyBonus s now p).coffee =
      s.coffee + (20 + ((checkDailyBonus s now p).streak : ℚ) * 5) ∧
    (checkDailyBonus s now p).lastDailyBonus = now ∧
    (checkDailyBonus s now p).quests.length = 3 ∧
    (∀ q ∈ (checkDailyBonus s now p).quests, q.progress = 0 ∧ q.completed = false) ∧
    ((checkDailyBonus s now p).quests.map questTemplateOf).Nodup ∧
    (∀ q ∈ (checkDailyBonus s now p).quests, questTemplateOf q ∈ templates) := by
  rw [cdb_fired s now p hday]
  refine ⟨?_, ?_, ?_, ?_, ?_, ?_, ?_⟩
  · rw [gdq_streak]
  · rw [gdq_coffee, gdq_streak]
  · rw [gdq_lastDailyBonus]
  · rw [gdq_quests, mkQuests_length, List.length_take, hp.length_eq]
    rfl
  · rw [gdq_quests]
    exact mkQuests_fresh _ _ _
  · rw [gdq_quests, mkQuests_map]
    exact List.Nodup.sublist (List.take_sublist 3 p) (hp.nodup_iff.mpr templates_nodup)
  · intro q hq
    rw [gdq_quests] at hq
    have hmem : questTemplateOf q ∈ (mkQuests now 0 (p.take 3)).map questTemplateOf :=
      List.mem_map_of_mem _ hq
    rw [mkQuests_map] at hmem
    exact hp.subset (List.take_subset 3 p hmem)

/-- Claim C4, witness: firing the bonus on the default state at
timestamp 86400000 gives streak 1, coffee 75 and 3 fresh quests. -/
theorem checkDailyBonus_spec_witness :
    (checkDailyBonus (defaultDev 0) 86400000 templates).streak = 1 ∧
    (checkDailyBonus (defaultDev 0) 86400000 templates).coffee = 75 ∧
    (checkDailyBonus (defaultDev 0) 86400000 templates).lastDailyBonus = 86400000 ∧
    (checkDailyBonus (defaultDev 0) 86400000 templates).quests.length = 3 := by
  have h := checkDailyBonus_spec (defaultDev 0) 86400000 templates
    (by norm_num [defaultDev]) (List.Perm.refl templates)
  have h1 : (checkDailyBonus (defaultDev 0) 86400000 templates).streak = 1 := by
    rw [h.1]
    norm_num [defaultDev]
  refine ⟨h1, ?_, h.2.2.1, h.2.2.2.1⟩
  rw [h.2.1, h1]
  norm_num [defaultDev]

/-- Claim C7: the record that `resetProgress` installs is not the
creation-time default record: it omits `questStreak`,
`dailyQuestsCompleted` and `tutorialCompleted` (leaving them undefined)
where the creation default sets them to 0, false and false. -/
theorem resetRecord_omits_fields :
    (resetRecord 0).questStreak = none ∧ (defaultDev 0).questStreak = some 0 ∧
    (resetRecord 0).dailyQuestsCompleted = none ∧
    (defaultDev 0).dailyQuestsCompleted = some false ∧
    (resetRecord 0).tutorialCompleted = none ∧
    (defaultDev 0).tutorialCompleted = some false ∧
    resetRecord 0 ≠ defaultDev 0 := by
  refine ⟨rfl, rfl, rfl, rfl, rfl, rfl, ?_⟩
  intro h
  exact Option.noConfusion (congrArg Dev.questStreak h)

/-- Claim C8: loading a persisted blob never fails; each backfillable
field (`inventory`, `lastDailyBonus`, `streak`, `skills`, `quests`,
`questStreak`, `dailyQuestsCompleted`, `tutorialCompleted`) is taken
from the blob when present and otherwise defaulted to the empty list,
0 or false, every other field is copied unchanged, and loading with no
blob at all yields the full default state. -/
theorem loadDeveloper_spec (b : SavedDev) (now : ℤ) :
    (loadDeveloper (some b) now).skills = b.skills.getD [] ∧
    (loadDeveloper (some b) now).inventory = b.inventory.getD [] ∧
    (loadDeveloper (some b) now).quests = b.quests.getD [] ∧
    (loadDeveloper (some b) now).lastDailyBonus = b.lastDailyBonus.getD 0 ∧
    (loadDeveloper (some b) now).streak = b.streak.getD 0 ∧
    (loadDeveloper (some b) now).questStreak = some (b.questStreak.getD 0) ∧
    (loadDeveloper (some b) now).dailyQuestsCompleted =
      some (b.dailyQuestsCompleted.getD false) ∧
    (loadDeveloper (some b) now).tutorialCompleted =
      some (b.tutorialCompleted.getD false) ∧
    (loadDeveloper (some b) now).energy = b.energy ∧
    (loadDeveloper (some b) now).motivation = b.motivation ∧
    (loadDeveloper (some b) now).focus = b.focus ∧
    (loadDeveloper (some b) now).health = b.health ∧
    (loadDeveloper (some b) now).xp = b.xp ∧
    (loadDeveloper (some b) now).level = b.level ∧
    (loadDeveloper (some b) now).coffee = b.coffee ∧
    (loadDeveloper (some b) now).name = b.name ∧
    (loadDeveloper (some b) now).role = b.role ∧
    (loadDeveloper (some b) now).mood = b.mood ∧
    (loadDeveloper (some b) now).lastUpdated = b.lastUpdated ∧
    loadDeveloper none now = defaultDev now := by
  refine ⟨rfl, rfl, rfl, ?_, ?_, rfl, rfl, rfl, rfl, rfl, rfl, rfl, rfl, rfl, rfl,
    rfl, rfl, rfl, rfl, rfl⟩
  · exact jsNumOrZero_eq_getD b.lastDailyBonus
  · exact jsNumOrZero_eq_getD b.streak

/-- Claim C9: on any state with `lastDailyBonus = 0` and no active
quests (the fresh default and any backfilled legacy save), the first
tick at any realistic epoch timestamp (at least 24 hours) fires the
daily bonus: the streak is set to 1 (not incremented, since the
consecutive-login branch requires a prior nonzero bonus timestamp),
coffee grows by exactly 20 + 1*5 = 25, and 3 quests are generated. -/
theorem first_tick_fires_daily_bonus (s : Dev) (now hour c : ℤ)
    (p : List QuestTemplate) (h0 : s.lastDailyBonus = 0) (hq : s.quests = [])
    (hnow : (24 * 60 * 60 * 1000 : ℤ) ≤ now) (hp : p.Perm templates) :
    (updateStats s now hour c p).streak = 1 ∧
    (updateStats s now hour c p).coffee = s.coffee + 25 ∧
    (updateStats s now hour c p).quests.length = 3 := by
  simp only [updateStats]
  rw [uqp_nil]
  · simp only [ite_self]
    refine ⟨(cdb_from_zero _ now p ?_ hnow hp).1, (cdb_from_zero _ now p ?_ hnow hp).2.1,
      (cdb_from_zero _ now p ?_ hnow hp).2.2⟩ <;> exact h0
  · exact hq

/-- Claim C9, witness: the first tick on the default state at timestamp
86400000 sets streak 1, coffee 75 and 3 quests. -/
theorem first_tick_fires_daily_bonus_witness :
    (updateStats (defaultDev 0) 86400000 12 0 templates).streak = 1 ∧
    (updateStats (defaultDev 0) 86400000 12 0 templates).coffee = 75 ∧
    (updateStats (defaultDev 0) 86400000 12 0 templates).quests.length = 3 := by
  have h := first_tick_fires_daily_bonus (defaultDev 0) 86400000 12 0 templates
    rfl rfl (by norm_num) (List.Perm.refl templates)
  refine ⟨h.1, ?_, h.2.2⟩
  rw [h.2.1]
  norm_num [defaultDev]

/-- Claim C10: in a successful `giveCoffee` the XP momentum multiplier
is evaluated on the post-boost, clamped stat values: the XP pipeline is
exactly `levelLoop` applied to the floored product over the boosted
energy, focus and motivation, not the pre-coffee values. -/
theorem giveCoffee_xp_momentum_after_boost (s : Dev) (h : 10 ≤ s.coffee) :
    (giveCoffee s).1.success = true ∧
    ((giveCoffee s).2).energy =
      min 100 (s.energy + (if s.skills.contains "caffeine_tolerance" then 52 else 35)) ∧
    ((giveCoffee s).2).focus = min 100 (s.focus + 20) ∧
    ((giveCoffee s).2).motivation = min 100 (s.motivation + 10) ∧
    (((giveCoffee s).2).level, ((giveCoffee s).2).xp) =
      levelLoop s.level (s.xp +
        ((⌊5 * (1 + (min 100 (s.energy +
            (if s.skills.contains "caffeine_tolerance" then 52 else 35))) / 100) *
          (1 + (min 100 (s.focus + 20)) / 100) *
          (1 + (min 100 (s.motivation + 10)) / 100)⌋ : ℤ) : ℚ)) := by
  have hns : ¬ s.coffee < 10 := not_lt.mpr h
  simp only [giveCoffee, if_neg hns]
  exact ⟨trivial, rfl, rfl, rfl, rfl⟩

/-- Claim C10, witness: `giveCoffee` on the default state boosts all
stats to their caps and gains 40 = floor(5*2*2*2) XP on level 1. -/
theorem giveCoffee_xp_momentum_after_boost_witness :
    (((giveCoffee (defaultDev 0)).2).level, ((giveCoffee (defaultDev 0)).2).xp) = (1, 40) := by
  have h := (giveCoffee_xp_momentum_after_boost (defaultDev 0)
    (by norm_num [defaultDev])).2.2.2.2
  rw [h]
  norm_num [defaultDev, min_def]
  rw [levelLoop]
  norm_num

end DevGotchi
